import Mathlib

/-!
Verification of the Code-Review-Agent pipeline (src/agent.py, src/code_analyzer.py,
src/security_scanner.py) against its specification.

The Python modules are shallowly embedded below.  External effects are modelled
as explicit inputs:
* the outcome of `ast.parse` travels with the file content (`FileContent.parse`),
* the outcome of the Ollama HTTP call is an `OllamaOutcome`,
* `json.loads(response).get("issues", [])` is an oracle `String → Option (List PyVal)`
  (`none` models any exception raised while decoding),
* the outcome of file discovery (`_get_files_to_review`) and of reading a file are
  `Except` values.
Everything else (the regex rule tables, the complexity walk, the orchestration
loop, the aggregation) is translated directly from the source.
-/

namespace CodeReviewAgent

/-! ### Characters and Python string helpers -/

/-- Python whitespace as used by `\s`, `str.strip` and `str.rstrip`
(space, tab, newline, carriage return, vertical tab, form feed). -/
def isPySpace (c : Char) : Bool :=
  c == ' ' || c == '\t' || c == '\n' || c == '\r' || c == '\x0b' || c == '\x0c'

/-- The single-quote character (written by code point to keep source plain). -/
def squote : Char := Char.ofNat 39

/-- The double-quote character. -/
def dquote : Char := Char.ofNat 34

/-- The character class `["\']`. -/
def isQuote (c : Char) : Bool := c == dquote || c == squote

/-- The character class `[^"\']`. -/
def notQuote (c : Char) : Bool := !(isQuote c)

/-- The character class `[^"\'\s]`. -/
def notQuoteSpace (c : Char) : Bool := !(isQuote c || isPySpace c)

/-- ASCII letters and digits, `[a-zA-Z0-9]`. -/
def isAlnum (c : Char) : Bool := c.isAlpha || c.isDigit

/-- The regex class `\w`, i.e. `[a-zA-Z0-9_]` for ASCII input. -/
def isWordChar (c : Char) : Bool := isAlnum c || c == '_'

/-- `[0-9a-f]`. -/
def isHexLower (c : Char) : Bool := c.isDigit || (97 ≤ c.toNat && c.toNat ≤ 102)

/-- `[0-9A-Z]`. -/
def isDigitUpper (c : Char) : Bool := c.isDigit || (65 ≤ c.toNat && c.toNat ≤ 90)

/-- `[a-zA-Z0-9_-]`. -/
def isTokenChar (c : Char) : Bool := isAlnum c || c == '_' || c == '-'

/-- `[0-9a-zA-Z/+]`. -/
def isB64Char (c : Char) : Bool := isAlnum c || c == '/' || c == '+'

/-- Python `str.strip()` (strip whitespace from both ends). -/
def pyStrip (s : String) : String :=
  String.mk (((s.data.dropWhile isPySpace).reverse.dropWhile isPySpace).reverse)

/-- Python `str.rstrip()` (strip trailing whitespace). -/
def pyRstrip (s : String) : String :=
  String.mk ((s.data.reverse.dropWhile isPySpace).reverse)

/-- Accumulating loop of `pySplitlines`: each `\n` ends a line; the final
segment is kept only when it is nonempty (so a trailing newline adds no empty
line, as in Python). -/
def splitlinesAux : List Char → List Char → List String
  | [], [] => []
  | [], acc => [String.mk acc.reverse]
  | c :: rest, acc =>
    if c == '\n' then String.mk acc.reverse :: splitlinesAux rest []
    else splitlinesAux rest (c :: acc)

/-- Python `str.splitlines()` restricted to `\n` line terminators (the only
terminator occurring in the analysed inputs). -/
def pySplitlines (s : String) : List String := splitlinesAux s.data []

/-- Splitting loop of `splitOnChar` (Python `str.split(sep)` semantics: the
empty string yields one empty piece, separators delimit possibly empty
pieces). -/
def splitOnCharAux (sep : Char) : List Char → List Char → List String
  | [], acc => [String.mk acc.reverse]
  | c :: rest, acc =>
    if c == sep then String.mk acc.reverse :: splitOnCharAux sep rest []
    else splitOnCharAux sep rest (c :: acc)

/-- Split a string on a separator character. -/
def splitOnChar (s : String) (sep : Char) : List String := splitOnCharAux sep s.data []

/-- Whether a string starts with the given character. -/
def startsWithChar (s : String) (c : Char) : Bool :=
  match s.data with
  | [] => false
  | d :: _ => d == c

/-- ASCII `str.lower()`. -/
def strToLower (s : String) : String := String.mk (s.data.map Char.toLower)

/-- The opening-brace character. -/
def lbrace : Char := Char.ofNat 123

/-! ### A small regex engine

The scanners drive `re.finditer` over fixed pattern literals.  The patterns use
only: literals, character classes, alternation, greedy `*` / `+` / `?` /
`{n}` / `{n,}` / `{n,m}` over character classes, `$` (with `re.MULTILINE`) and
one negative lookahead.  `RE` covers exactly that fragment, with Python's
leftmost, greedy, backtracking match semantics. -/

inductive RE where
  /-- matches the empty string -/
  | eps : RE
  /-- a single character from a class -/
  | cls (p : Char → Bool) : RE
  | seq (a b : RE) : RE
  /-- `a|b`, trying `a` first as Python does -/
  | alt (a b : RE) : RE
  /-- greedy `p*` over a character class -/
  | star (p : Char → Bool) : RE
  /-- `$` under `re.MULTILINE`: end of input or just before a newline -/
  | eol : RE
  /-- negative lookahead `(?!r)` -/
  | nlk (r : RE) : RE

/-- Greedy Kleene star over a character class in continuation-passing style:
consume as many class characters as possible, backtracking one at a time. -/
def tryStar (p : Char → Bool) (k : List Char → Option (List Char)) :
    List Char → Option (List Char)
  | [] => k []
  | c :: rest =>
    if p c then (tryStar p k rest) <|> k (c :: rest) else k (c :: rest)

/-- Backtracking matcher: `matchRE r cs k` attempts to match `r` at the start of
`cs` and passes the remaining suffix to the continuation `k`, preferring the
greedy/leftmost alternatives exactly as Python `re` does on this fragment. -/
def matchRE : RE → List Char → (List Char → Option (List Char)) → Option (List Char)
  | .eps, cs, k => k cs
  | .cls _, [], _ => none
  | .cls p, c :: rest, k => if p c then k rest else none
  | .seq a b, cs, k => matchRE a cs (fun cs2 => matchRE b cs2 k)
  | .alt a b, cs, k => (matchRE a cs k) <|> (matchRE b cs k)
  | .star p, cs, k => tryStar p k cs
  | .eol, [], k => k []
  | .eol, c :: rest, k => if c == '\n' then k (c :: rest) else none
  | .nlk r, cs, k =>
    match matchRE r cs some with
    | some _ => none
    | none => k cs

/-- Length (in characters) of the match of `r` anchored at the start of `cs`,
if any. -/
def reMatchLen (r : RE) (cs : List Char) : Option Nat :=
  match matchRE r cs some with
  | some rest => some (cs.length - rest.length)
  | none => none

/-- Fuelled scanning loop of `re.finditer` (each step shortens the input, so
`cs.length + 1` units of fuel are always enough; the fuel only makes the
recursion structural). -/
def finditerAux (r : RE) : Nat → List Char → Nat → List Nat
  | 0, _, _ => []
  | _ + 1, [], pos =>
    match reMatchLen r [] with
    | some _ => [pos]
    | none => []
  | fuel + 1, c :: rest, pos =>
    match reMatchLen r (c :: rest) with
    | some 0 => pos :: finditerAux r fuel rest (pos + 1)
    | some (n + 1) => pos :: finditerAux r fuel (List.drop n rest) (pos + n + 1)
    | none => finditerAux r fuel rest (pos + 1)

/-- `re.finditer`: start offsets of the non-overlapping matches of `r`,
scanning left to right and resuming after each match (advancing by one on an
empty match), as CPython does. -/
def finditer (r : RE) (cs : List Char) (pos : Nat) : List Nat :=
  finditerAux r (cs.length + 1) cs pos

/-- `content[:start].count("\n") + 1`: the 1-based line number the scanners
attach to a match offset. -/
def lineOfOffset (content : String) (start : Nat) : Nat :=
  ((content.data.take start).countP (fun c => c == '\n')) + 1

/-! Pattern-building helpers used to transcribe the regex literals. -/

/-- A literal character. -/
def chr (c : Char) : RE := RE.cls (fun d => d == c)

/-- Case-insensitive equality of characters (ASCII). -/
def lowerEq (c d : Char) : Bool := d.toLower == c.toLower

/-- A case-sensitive literal string. -/
def reStr (s : String) : RE :=
  s.data.foldr (fun c r => RE.seq (chr c) r) RE.eps

/-- A case-insensitive literal string (for patterns compiled with
`re.IGNORECASE` or carrying an inline `(?i)`). -/
def reStrCI (s : String) : RE :=
  s.data.foldr (fun c r => RE.seq (RE.cls (lowerEq c)) r) RE.eps

/-- Sequence of a list of regexes. -/
def reCat (rs : List RE) : RE := rs.foldr RE.seq RE.eps

/-- Alternation of a list of regexes, preferring earlier entries. -/
def reAnyOf : List RE → RE
  | [] => RE.nlk RE.eps
  | [r] => r
  | r :: rs => RE.alt r (reAnyOf rs)

/-- Greedy `?`. -/
def reOpt (r : RE) : RE := RE.alt r RE.eps

/-- `p+` over a character class (greedy). -/
def rePlus (p : Char → Bool) : RE := RE.seq (RE.cls p) (RE.star p)

/-- `p{n}` over a character class. -/
def reRep : Nat → (Char → Bool) → RE
  | 0, _ => RE.eps
  | n + 1, p => RE.seq (RE.cls p) (reRep n p)

/-- `p{0,n}` over a character class (greedy). -/
def reUpTo : Nat → (Char → Bool) → RE
  | 0, _ => RE.eps
  | n + 1, p => RE.alt (RE.seq (RE.cls p) (reUpTo n p)) RE.eps

/-- `p{n,}` over a character class (greedy). -/
def reAtLeast (n : Nat) (p : Char → Bool) : RE := RE.seq (reRep n p) (RE.star p)

/-- `p{lo,hi}` over a character class (greedy). -/
def reRange (lo hi : Nat) (p : Char → Bool) : RE :=
  RE.seq (reRep lo p) (reUpTo (hi - lo) p)

/-- `\s*`. -/
def wsStar : RE := RE.star isPySpace

/-- `\s+`. -/
def wsPlus : RE := rePlus isPySpace

/-- `["\']?`. -/
def quoteOpt : RE := reOpt (RE.cls isQuote)

/-- `.` (any character except newline; `re.DOTALL` is never set). -/
def dotAny (c : Char) : Bool := !(c == '\n')

/-! ### The shared issue value

Issues are Python dicts.  Each producer fills a different key set
(`code_analyzer._issue_to_dict` has no `cwe_id`, the AI fallback has no
`line`/`column`/`file_path`), and every consumer reads keys through `.get`
with a default, so an absent key and an explicit `None` value are modelled
alike as `none`. -/

structure IssueDict where
  type : Option String := none
  severity : Option String := none
  message : Option String := none
  line : Option Int := none
  column : Option Int := none
  file_path : Option String := none
  cwe_id : Option String := none
  source : Option String := none
deriving DecidableEq

/-! ### security_scanner.py -/

/-- One row of a security rule table: `(pattern, severity, cwe_id, message)`. -/
structure SecRule where
  pattern : RE
  severity : String
  cwe_id : String
  message : String

/-- `SecurityScanner._issue_to_dict` applied to the `SecurityIssue` built for a
match of a rule at a given line. -/
def securityIssueDict (r : SecRule) (line : Nat) (fp : String) : IssueDict :=
  { type := some "security", severity := some r.severity, message := some r.message,
    line := some (line : Int), column := none, file_path := some fp,
    cwe_id := some r.cwe_id, source := some "security_scanner" }

/-- All issues a single rule contributes to a scan of `content`, one per
`re.finditer` match, at line `content[:match.start()].count("\n") + 1`. -/
def ruleIssues (r : SecRule) (content : String) (fp : String) : List IssueDict :=
  (finditer r.pattern content.data 0).map
    (fun s => securityIssueDict r (lineOfOffset content s) fp)

/- The category tables of `_init_security_patterns`.  `scan` compiles them with
`re.MULTILINE | re.IGNORECASE`, so every literal is transcribed
case-insensitively (each raw pattern also carries an inline `(?i)`, except the
JWT row, which the flag still makes case-insensitive). -/

/-- `patterns["secrets"]`. -/
def secretsRules : List SecRule :=
  [ { pattern := reCat [reAnyOf [reCat [reStrCI "api", reOpt (RE.cls (fun c => c == '_' || c == '-')), reStrCI "key"], reStrCI "apikey"],
        wsStar, RE.cls (fun c => c == '=' || c == ':'), wsStar, quoteOpt, reAtLeast 20 isAlnum, quoteOpt],
      severity := "HIGH", cwe_id := "CWE-798", message := "Hardcoded API key detected" },
    { pattern := reCat [reAnyOf [reCat [reStrCI "secret", reOpt (RE.cls (fun c => c == '_' || c == '-')), reStrCI "key"], reStrCI "secretkey"],
        wsStar, RE.cls (fun c => c == '=' || c == ':'), wsStar, quoteOpt, reAtLeast 20 isAlnum, quoteOpt],
      severity := "HIGH", cwe_id := "CWE-798", message := "Hardcoded secret key detected" },
    { pattern := reCat [reAnyOf [reCat [reStrCI "access", reOpt (RE.cls (fun c => c == '_' || c == '-')), reStrCI "token"], reStrCI "accesstoken"],
        wsStar, RE.cls (fun c => c == '=' || c == ':'), wsStar, quoteOpt, reAtLeast 20 isAlnum, quoteOpt],
      severity := "HIGH", cwe_id := "CWE-798", message := "Hardcoded access token detected" },
    { pattern := reCat [reAnyOf [reStrCI "password", reStrCI "passwd", reStrCI "pwd"],
        wsStar, RE.cls (fun c => c == '=' || c == ':'), wsStar, quoteOpt, reAtLeast 6 notQuoteSpace, quoteOpt],
      severity := "HIGH", cwe_id := "CWE-798", message := "Hardcoded password detected" },
    { pattern := reCat [reAnyOf [reCat [reStrCI "db", reOpt (RE.cls (fun c => c == '_' || c == '-')), reStrCI "password"],
          reCat [reStrCI "database", reOpt (RE.cls (fun c => c == '_' || c == '-')), reStrCI "password"]],
        wsStar, RE.cls (fun c => c == '=' || c == ':'), wsStar, quoteOpt, reAtLeast 6 notQuoteSpace, quoteOpt],
      severity := "HIGH", cwe_id := "CWE-798", message := "Hardcoded database password detected" },
    { pattern := reCat [reAnyOf [reStrCI "mongodb", reStrCI "mysql", reStrCI "postgresql"], reStrCI "://",
        rePlus (fun c => !(c == ':')), chr ':', rePlus (fun c => !(c == '@')), chr '@'],
      severity := "HIGH", cwe_id := "CWE-798", message := "Database credentials in connection string" },
    { pattern := reCat [reStrCI "eyJ", RE.star isTokenChar, chr '.', reStrCI "eyJ", RE.star isTokenChar, chr '.', RE.star isTokenChar],
      severity := "MEDIUM", cwe_id := "CWE-798", message := "JWT token detected (may contain sensitive data)" } ]

/-- `patterns["sql_injection"]`. -/
def sqlInjectionRules : List SecRule :=
  [ { pattern := reCat [reAnyOf [reStrCI "SELECT", reStrCI "INSERT", reStrCI "UPDATE", reStrCI "DELETE"],
        wsPlus, RE.star dotAny, chr '+', RE.star dotAny, RE.cls isQuote],
      severity := "HIGH", cwe_id := "CWE-89", message := "Potential SQL injection vulnerability" },
    { pattern := reCat [reAnyOf [reStrCI "SELECT", reStrCI "INSERT", reStrCI "UPDATE", reStrCI "DELETE"],
        wsPlus, RE.star dotAny, chr '$', RE.star dotAny, RE.cls isQuote],
      severity := "HIGH", cwe_id := "CWE-89", message := "Potential SQL injection vulnerability" },
    { pattern := reCat [reAnyOf [reStrCI "SELECT", reStrCI "INSERT", reStrCI "UPDATE", reStrCI "DELETE"],
        wsPlus, RE.star dotAny, reStrCI "%s", RE.star dotAny, RE.cls isQuote],
      severity := "HIGH", cwe_id := "CWE-89", message := "Potential SQL injection vulnerability" },
    { pattern := reCat [reStrCI "execute", wsStar, chr '(', wsStar, RE.cls isQuote,
        RE.star notQuote, chr '+', RE.star notQuote, RE.cls isQuote],
      severity := "HIGH", cwe_id := "CWE-89", message := "Dynamic SQL execution with string concatenation" } ]

/-- `patterns["xss"]`. -/
def xssRules : List SecRule :=
  [ { pattern := reCat [reStrCI "innerHTML", wsStar, chr '=', wsStar, RE.star (fun c => !(c == ';')), chr '+'],
      severity := "MEDIUM", cwe_id := "CWE-79", message := "Potential XSS vulnerability with innerHTML" },
    { pattern := reCat [reStrCI "document.write", wsStar, chr '(', RE.star (fun c => !(c == ')')), chr '+'],
      severity := "MEDIUM", cwe_id := "CWE-79", message := "Potential XSS vulnerability with document.write" },
    { pattern := reCat [reStrCI "eval", wsStar, chr '(', RE.star (fun c => !(c == ')')), chr '+'],
      severity := "HIGH", cwe_id := "CWE-95", message := "Use of eval() with dynamic content" } ]

/-- `patterns["authentication"]`. -/
def authenticationRules : List SecRule :=
  [ { pattern := reCat [reStrCI "password", wsStar, chr '=', wsStar, RE.cls isQuote,
        reRange 1 7 notQuote, RE.cls isQuote],
      severity := "MEDIUM", cwe_id := "CWE-521", message := "Weak password (too short)" },
    { pattern := reCat [reStrCI "if", wsStar, chr '(', wsStar, reStrCI "password", wsStar,
        chr '=', chr '=', wsStar, RE.cls isQuote, rePlus notQuote, RE.cls isQuote],
      severity := "HIGH", cwe_id := "CWE-798", message := "Hardcoded password comparison" },
    { pattern := reCat [reStrCI "admin", wsStar, chr '=', wsStar, RE.cls isQuote, rePlus notQuote, RE.cls isQuote],
      severity := "MEDIUM", cwe_id := "CWE-798", message := "Hardcoded admin credentials" } ]

/-- `patterns["crypto"]`. -/
def cryptoRules : List SecRule :=
  [ { pattern := reCat [reStrCI "md5", wsStar, chr '('],
      severity := "MEDIUM", cwe_id := "CWE-327", message := "MD5 is cryptographically broken, use SHA-256 or better" },
    { pattern := reCat [reStrCI "sha1", wsStar, chr '('],
      severity := "MEDIUM", cwe_id := "CWE-327", message := "SHA-1 is cryptographically broken, use SHA-256 or better" },
    { pattern := reCat [reStrCI "des", wsStar, chr '('],
      severity := "HIGH", cwe_id := "CWE-327", message := "DES is cryptographically broken, use AES" },
    { pattern := reCat [reStrCI "random", wsStar, chr '(', wsStar, chr ')'],
      severity := "MEDIUM", cwe_id := "CWE-330", message := "Use cryptographically secure random number generator" } ]

/-- `patterns["file_operations"]`. -/
def fileOperationsRules : List SecRule :=
  [ { pattern := reCat [reStrCI "open", wsStar, chr '(', RE.star (fun c => !(c == ')')), chr '+',
        RE.star (fun c => !(c == ')')), chr ')'],
      severity := "MEDIUM", cwe_id := "CWE-22", message := "Potential path traversal vulnerability" },
    { pattern := reCat [reStrCI "file_get_contents", wsStar, chr '(', RE.star (fun c => !(c == ')')), chr '+',
        RE.star (fun c => !(c == ')')), chr ')'],
      severity := "MEDIUM", cwe_id := "CWE-22", message := "Potential path traversal vulnerability" },
    { pattern := reCat [reStrCI "include", wsStar, chr '(', RE.star (fun c => !(c == ')')), chr '+',
        RE.star (fun c => !(c == ')')), chr ')'],
      severity := "HIGH", cwe_id := "CWE-94", message := "Potential code injection vulnerability" },
    { pattern := reCat [reStrCI "require", wsStar, chr '(', RE.star (fun c => !(c == ')')), chr '+',
        RE.star (fun c => !(c == ')')), chr ')'],
      severity := "HIGH", cwe_id := "CWE-94", message := "Potential code injection vulnerability" } ]

/-- `patterns["network"]`. -/
def networkRules : List SecRule :=
  [ { pattern := reCat [reStrCI "http://", rePlus notQuoteSpace],
      severity := "MEDIUM", cwe_id := "CWE-319", message := "Insecure HTTP connection detected" },
    { pattern := reCat [reStrCI "ftp://", rePlus notQuoteSpace],
      severity := "MEDIUM", cwe_id := "CWE-319", message := "Insecure FTP connection detected" },
    { pattern := reCat [reStrCI "curl", wsPlus, RE.star notQuote, reStrCI "http://"],
      severity := "MEDIUM", cwe_id := "CWE-319", message := "Insecure HTTP request with curl" } ]

/-- `patterns["input_validation"]`. -/
def inputValidationRules : List SecRule :=
  [ { pattern := reCat [reStrCI "input", wsStar, chr '(', RE.star (fun c => !(c == ')')), chr ')', wsStar,
        RE.nlk (reCat [chr '.', reStrCI "strip", chr '(', chr ')'])],
      severity := "LOW", cwe_id := "CWE-20", message := "Input not validated or sanitized" },
    { pattern := reCat [reStrCI "raw_input", wsStar, chr '(', RE.star (fun c => !(c == ')')), chr ')', wsStar,
        RE.nlk (reCat [chr '.', reStrCI "strip", chr '(', chr ')'])],
      severity := "LOW", cwe_id := "CWE-20", message := "Input not validated or sanitized" },
    { pattern := reCat [reStrCI "request.get", wsStar, chr '(', RE.star (fun c => !(c == ')')), chr ')', wsStar,
        RE.nlk (reCat [chr '.', reStrCI "strip", chr '(', chr ')'])],
      severity := "LOW", cwe_id := "CWE-20", message := "Request parameter not validated" } ]

/-- `self.patterns`, in dict insertion order. -/
def security_patterns : List (String × List SecRule) :=
  [ ("secrets", secretsRules),
    ("sql_injection", sqlInjectionRules),
    ("xss", xssRules),
    ("authentication", authenticationRules),
    ("crypto", cryptoRules),
    ("file_operations", fileOperationsRules),
    ("network", networkRules),
    ("input_validation", inputValidationRules) ]

/- Language-specific tables.  These are compiled with `re.MULTILINE` only, so
their literals are case-sensitive. -/

/-- `_scan_python_security`'s `dangerous_functions` table. -/
def pythonDangerousRules : List SecRule :=
  [ { pattern := reCat [reStr "eval", wsStar, chr '('],
      severity := "HIGH", cwe_id := "CWE-95", message := "Use of eval() is dangerous" },
    { pattern := reCat [reStr "exec", wsStar, chr '('],
      severity := "HIGH", cwe_id := "CWE-95", message := "Use of exec() is dangerous" },
    { pattern := reCat [reStr "__import__", wsStar, chr '('],
      severity := "HIGH", cwe_id := "CWE-95", message := "Dynamic import can be dangerous" },
    { pattern := reCat [reStr "pickle.load", reOpt (chr 's'), wsStar, chr '('],
      severity := "HIGH", cwe_id := "CWE-502", message := "Pickle deserialization can be dangerous" },
    { pattern := reCat [reStr "yaml.load", wsStar, chr '('],
      severity := "MEDIUM", cwe_id := "CWE-502", message := "YAML.load() can be dangerous, use yaml.safe_load()" } ]

/-- `_scan_javascript_security`'s `dangerous_functions` table. -/
def javascriptDangerousRules : List SecRule :=
  [ { pattern := reCat [reStr "eval", wsStar, chr '('],
      severity := "HIGH", cwe_id := "CWE-95", message := "Use of eval() is dangerous" },
    { pattern := reCat [reStr "Function", wsStar, chr '('],
      severity := "HIGH", cwe_id := "CWE-95", message := "Use of Function constructor is dangerous" },
    { pattern := reCat [reStr "setTimeout", wsStar, chr '(', RE.star (fun c => !(c == ',')),
        RE.cls isQuote, RE.star notQuote, chr '+'],
      severity := "MEDIUM", cwe_id := "CWE-95", message := "Dynamic code execution with setTimeout" },
    { pattern := reCat [reStr "setInterval", wsStar, chr '(', RE.star (fun c => !(c == ',')),
        RE.cls isQuote, RE.star notQuote, chr '+'],
      severity := "MEDIUM", cwe_id := "CWE-95", message := "Dynamic code execution with setInterval" } ]

/-- `_scan_java_security`'s `dangerous_patterns` table. -/
def javaDangerousRules : List SecRule :=
  [ { pattern := reCat [reStr "Runtime.getRuntime().exec", wsStar, chr '('],
      severity := "HIGH", cwe_id := "CWE-78", message := "Command injection vulnerability" },
    { pattern := reCat [reStr "ProcessBuilder", wsStar, chr '(', RE.star (fun c => !(c == ')')), chr '+'],
      severity := "HIGH", cwe_id := "CWE-78", message := "Command injection vulnerability" },
    { pattern := reCat [reStr "Class.forName", wsStar, chr '(', RE.star (fun c => !(c == ')')), chr '+'],
      severity := "MEDIUM", cwe_id := "CWE-95", message := "Dynamic class loading can be dangerous" } ]

/-- `_scan_for_secrets`'s `secret_patterns` table (case-sensitive). -/
def secretDetectionRules : List SecRule :=
  [ { pattern := reCat [reStr "AKIA", reRep 16 isDigitUpper],
      severity := "HIGH", cwe_id := "CWE-798", message := "AWS Access Key ID detected" },
    { pattern := reRep 40 isB64Char,
      severity := "HIGH", cwe_id := "CWE-798", message := "AWS Secret Access Key detected" },
    { pattern := reCat [reStr "ghp_", reRep 36 isAlnum],
      severity := "HIGH", cwe_id := "CWE-798", message := "GitHub Personal Access Token detected" },
    { pattern := reCat [reStr "gho_", reRep 36 isAlnum],
      severity := "HIGH", cwe_id := "CWE-798", message := "GitHub OAuth Token detected" },
    { pattern := reCat [reStr "AIza", reRep 35 isTokenChar],
      severity := "HIGH", cwe_id := "CWE-798", message := "Google API Key detected" },
    { pattern := reCat [reStr "xoxb-", reRep 11 Char.isDigit, chr '-', reRep 11 Char.isDigit, chr '-', reRep 24 isAlnum],
      severity := "HIGH", cwe_id := "CWE-798", message := "Slack Bot Token detected" },
    { pattern := reRep 32 isHexLower,
      severity := "MEDIUM", cwe_id := "CWE-798", message := "Potential MD5 hash or token detected" },
    { pattern := reRep 40 isHexLower,
      severity := "MEDIUM", cwe_id := "CWE-798", message := "Potential SHA-1 hash or token detected" } ]

/-- The issues of all rules in a table, in table order. -/
def tableIssues (rules : List SecRule) (content : String) (fp : String) : List IssueDict :=
  rules.flatMap (fun r => ruleIssues r content fp)

/-- The category-table part of `scan` (the loop over `self.patterns`). -/
def scanCategories (content : String) (fp : String) : List IssueDict :=
  security_patterns.flatMap (fun cat => tableIssues cat.2 content fp)

/-- `_scan_python_security`. -/
def scan_python_security (content : String) (fp : String) : List IssueDict :=
  tableIssues pythonDangerousRules content fp

/-- `_scan_javascript_security`. -/
def scan_javascript_security (content : String) (fp : String) : List IssueDict :=
  tableIssues javascriptDangerousRules content fp

/-- `_scan_java_security`. -/
def scan_java_security (content : String) (fp : String) : List IssueDict :=
  tableIssues javaDangerousRules content fp

/-- `_scan_for_secrets`. -/
def scan_for_secrets (content : String) (fp : String) : List IssueDict :=
  tableIssues secretDetectionRules content fp

/-- The configuration values the agent, analyzer and scanner read, with the
defaults the code supplies through `.get(key, default)` / config properties. -/
structure AgentConfig where
  complexity_threshold : Nat := 10
  max_function_length : Nat := 50
  max_file_length : Nat := 500
  security_enabled : Bool := true
  check_secrets : Bool := true
deriving DecidableEq

/-- `SecurityScanner.scan`: category tables, then the language-specific table,
then (when `check_secrets` is set) the secret-detection pass. -/
def scan (cfg : AgentConfig) (content : String) (language : String) (fp : String) :
    List IssueDict :=
  scanCategories content fp
    ++ (if language == "python" then scan_python_security content fp
        else if language == "javascript" then scan_javascript_security content fp
        else if language == "java" then scan_java_security content fp
        else [])
    ++ (if cfg.check_secrets then scan_for_secrets content fp else [])

/-! ### code_analyzer.py

The analyzer parses Python sources with `ast.parse` and walks the tree.  The
AST is embedded with one constructor per node kind the analyzer inspects
(`ast.If`, `ast.While`, `ast.For`, `ast.AsyncFor`, `ast.ExceptHandler`,
`ast.BoolOp`, `ast.FunctionDef`, `ast.ClassDef`, and `ast.Expr(ast.Constant)`
over a string, which is what `_has_docstring` tests); every other construct is
`otherNode` over its child list.  `ast.walk` enumerates nodes breadth-first
while `pyWalk` below is depth-first; every fact proved here depends only on
the multiset of walked nodes (the complexity sum) or on a module body whose
functions and classes are all top-level, where the two orders enumerate the
function/class nodes identically. -/

inductive PyNode where
  | ifNode (test : PyNode) (body orelse : List PyNode)
  | whileNode (test : PyNode) (body orelse : List PyNode)
  | forNode (target iter : PyNode) (body orelse : List PyNode)
  | asyncForNode (target iter : PyNode) (body orelse : List PyNode)
  | exceptHandlerNode (body : List PyNode)
  | boolOpNode (values : List PyNode)
  | functionDefNode (name : String) (argCount : Nat) (lineno endLineno : Int)
      (body : List PyNode)
  | classDefNode (name : String) (lineno : Int) (body : List PyNode)
  | exprConstStrNode (s : String)
  | otherNode (children : List PyNode)

mutual

/-- `ast.walk(node)`: the node and all its descendants. -/
def pyWalk : PyNode → List PyNode
  | .ifNode t b o => .ifNode t b o :: (pyWalk t ++ pyWalkList b ++ pyWalkList o)
  | .whileNode t b o => .whileNode t b o :: (pyWalk t ++ pyWalkList b ++ pyWalkList o)
  | .forNode t i b o => .forNode t i b o :: (pyWalk t ++ pyWalk i ++ pyWalkList b ++ pyWalkList o)
  | .asyncForNode t i b o =>
    .asyncForNode t i b o :: (pyWalk t ++ pyWalk i ++ pyWalkList b ++ pyWalkList o)
  | .exceptHandlerNode b => .exceptHandlerNode b :: pyWalkList b
  | .boolOpNode vs => .boolOpNode vs :: pyWalkList vs
  | .functionDefNode n a l e b => .functionDefNode n a l e b :: pyWalkList b
  | .classDefNode n l b => .classDefNode n l b :: pyWalkList b
  | .exprConstStrNode s => [.exprConstStrNode s]
  | .otherNode cs => .otherNode cs :: pyWalkList cs

/-- `ast.walk` over a list of sibling nodes. -/
def pyWalkList : List PyNode → List PyNode
  | [] => []
  | n :: ns => pyWalk n ++ pyWalkList ns

end

/-- The contribution of one walked node to `_calculate_complexity`: `+1` for the
branching constructs in the `isinstance` tuple, `len(values) - 1` for a
`BoolOp`, nothing otherwise. -/
def complexityDelta : PyNode → Int
  | .ifNode _ _ _ => 1
  | .whileNode _ _ _ => 1
  | .forNode _ _ _ _ => 1
  | .asyncForNode _ _ _ _ => 1
  | .exceptHandlerNode _ => 1
  | .boolOpNode values => (values.length : Int) - 1
  | _ => 0

/-- `_calculate_complexity`: start from the base complexity 1 and accumulate
over `ast.walk(node)`. -/
def calculate_complexity (node : PyNode) : Int :=
  (pyWalk node).foldl (fun c child => c + complexityDelta child) 1

/-- `CodeAnalyzer._issue_to_dict` applied to a `CodeIssue` (no `cwe_id` key;
`source` is `"static_analysis"`). -/
def staticIssue (ty severity message : String) (line column : Option Int)
    (fp : String) : IssueDict :=
  { type := some ty, severity := some severity, message := some message,
    line := line, column := column, file_path := some fp, cwe_id := none,
    source := some "static_analysis" }

/-- `_analyze_python_function`.  `node.lineno`/`node.end_lineno` are `Int`s with
`0` standing for a falsy value (CPython never produces line number 0, and
`None` and `0` behave identically under the guard `if node.end_lineno and
node.lineno`). -/
def analyze_python_function (cfg : AgentConfig) (fp : String) (node : PyNode) :
    List IssueDict :=
  match node with
  | .functionDefNode name argCount lineno endLineno body =>
    (if endLineno ≠ 0 ∧ lineno ≠ 0 ∧ endLineno - lineno > (cfg.max_function_length : Int) then
      [staticIssue "quality" "MEDIUM"
        ("Function \x27" ++ name ++ "\x27 is too long (" ++ toString (endLineno - lineno)
          ++ " lines). Consider refactoring.") (some lineno) none fp]
    else [])
    ++ (if calculate_complexity (.functionDefNode name argCount lineno endLineno body)
          > (cfg.complexity_threshold : Int) then
      [staticIssue "quality" "MEDIUM"
        ("Function \x27" ++ name ++ "\x27 has high complexity ("
          ++ toString (calculate_complexity (.functionDefNode name argCount lineno endLineno body))
          ++ "). Consider simplifying.") (some lineno) none fp]
    else [])
    ++ (if argCount > 5 then
      [staticIssue "quality" "LOW"
        ("Function \x27" ++ name ++ "\x27 has many parameters (" ++ toString argCount
          ++ "). Consider using a data structure.") (some lineno) none fp]
    else [])
  | _ => []

/-- `_has_docstring`: the first statement of the body is an `ast.Expr` wrapping
a string constant. -/
def has_docstring (body : List PyNode) : Bool :=
  match body with
  | [] => false
  | .exprConstStrNode _ :: _ => true
  | _ :: _ => false

/-- `_analyze_python_class`. -/
def analyze_python_class (fp : String) (node : PyNode) : List IssueDict :=
  match node with
  | .classDefNode name lineno body =>
    if has_docstring body then []
    else
      [staticIssue "quality" "LOW"
        ("Class \x27" ++ name ++ "\x27 is missing a docstring.") (some lineno) none fp]
  | _ => []

/-- The data `SyntaxError` carries into the analyzer`s handler. -/
structure SyntaxErr where
  msg : String
  lineno : Option Int
  offset : Option Int
deriving DecidableEq

/-- The single `HIGH` issue `_analyze_python` emits for a parse failure. -/
def pySyntaxIssue (e : SyntaxErr) (fp : String) : IssueDict :=
  staticIssue "quality" "HIGH" ("Syntax error: " ++ e.msg) e.lineno e.offset fp

/-- A file's content together with the outcome of `ast.parse` on it (the parser
itself is Python's and is treated as an oracle carried with the input; the
module is represented by its top-level statement list). -/
structure FileContent where
  text : String
  parse : Except SyntaxErr (List PyNode)

/-- `_analyze_python`: parse, then the file-length check, then function and
class checks over the walked tree; a `SyntaxError` yields exactly the one
syntax issue (the length check sits after `ast.parse` inside the `try`, so it
too is skipped on a parse failure). -/
def analyze_python (cfg : AgentConfig) (content : FileContent) (fp : String) :
    List IssueDict :=
  match content.parse with
  | .ok tree =>
    (if (pySplitlines content.text).length > cfg.max_file_length then
      [staticIssue "quality" "MEDIUM"
        ("File is too long (" ++ toString (pySplitlines content.text).length
          ++ " lines). Consider splitting into smaller modules.") none none fp]
    else [])
    ++ (pyWalkList tree).flatMap (fun n =>
        match n with
        | .functionDefNode _ _ _ _ _ => analyze_python_function cfg fp n
        | .classDefNode _ _ _ => analyze_python_class fp n
        | _ => [])
  | .error e => [pySyntaxIssue e fp]

/-- The regex-table analyzers: one issue per match per pattern, at the line of
the match offset, with the table's fixed type and severity. -/
def regexIssues (ty severity : String) (patterns : List (RE × String))
    (content fp : String) : List IssueDict :=
  patterns.flatMap (fun pr =>
    (finditer pr.1 content.data 0).map (fun s =>
      staticIssue ty severity pr.2 (some (lineOfOffset content s)) none fp))

/-- `_analyze_javascript`'s pattern table. -/
def javascriptQualityPatterns : List (RE × String) :=
  [ (reCat [reStr "var", wsPlus, rePlus isWordChar],
      "Consider using \x27let\x27 or \x27const\x27 instead of \x27var\x27"),
    (reCat [reStr "==", wsStar, RE.cls (fun c => !(c == '='))],
      "Use strict equality (===) instead of loose equality (=)"),
    (reStr "console.log(", "Remove console.log statements from production code") ]

/-- `_analyze_javascript`. -/
def analyze_javascript (content fp : String) : List IssueDict :=
  regexIssues "quality" "LOW" javascriptQualityPatterns content fp

/-- `_analyze_java`'s pattern table. -/
def javaQualityPatterns : List (RE × String) :=
  [ (reStr "System.out.print", "Use proper logging instead of System.out.print"),
    (reCat [reStr "catch", wsStar, chr '(', wsStar, reStr "Exception", wsPlus,
        rePlus isWordChar, wsStar, chr ')'],
      "Avoid catching generic Exception, be more specific") ]

/-- `_analyze_java`. -/
def analyze_java (content fp : String) : List IssueDict :=
  regexIssues "quality" "MEDIUM" javaQualityPatterns content fp

/-- `_analyze_cpp`'s pattern table. -/
def cppQualityPatterns : List (RE × String) :=
  [ (reStr "using namespace std;", "Avoid \x27using namespace std\x27 in header files"),
    (reCat [reStr "#include", wsStar, reStr "<iostream>"],
      "Consider using specific headers instead of iostream") ]

/-- `_analyze_cpp`. -/
def analyze_cpp (content fp : String) : List IssueDict :=
  regexIssues "quality" "LOW" cppQualityPatterns content fp

/-- `_analyze_go`'s pattern table. -/
def goQualityPatterns : List (RE × String) :=
  [ (reCat [reStr "panic", wsStar, chr '('], "Avoid using panic, return errors instead"),
    (reStr "fmt.Print", "Use proper logging instead of fmt.Print") ]

/-- `_analyze_go`. -/
def analyze_go (content fp : String) : List IssueDict :=
  regexIssues "quality" "MEDIUM" goQualityPatterns content fp

/-- `_analyze_rust`'s pattern table. -/
def rustQualityPatterns : List (RE × String) :=
  [ (reCat [reStr "unwrap", wsStar, chr '('],
      "Consider using proper error handling instead of unwrap()"),
    (reCat [reStr "println!", wsStar, chr '('],
      "Use proper logging instead of println! in production") ]

/-- `_analyze_rust`. -/
def analyze_rust (content fp : String) : List IssueDict :=
  regexIssues "quality" "MEDIUM" rustQualityPatterns content fp

/-- `_analyze_general`: first the long-line loop over all lines, then the
trailing-whitespace loop (two separate passes, as in the source). -/
def analyze_general (content fp : String) : List IssueDict :=
  let lines := pySplitlines content
  lines.enum.flatMap (fun il =>
    if il.2.length > 120 then
      [staticIssue "quality" "LOW"
        ("Line " ++ toString (il.1 + 1) ++ " is too long (" ++ toString il.2.length
          ++ " characters). Consider breaking it up.") (some ((il.1 : Int) + 1)) none fp]
    else [])
  ++ lines.enum.flatMap (fun il =>
    if pyRstrip il.2 ≠ il.2 then
      [staticIssue "quality" "LOW"
        ("Line " ++ toString (il.1 + 1) ++ " has trailing whitespace.")
        (some ((il.1 : Int) + 1)) none fp]
    else [])

/-- `CodeAnalyzer.analyze`: the per-language pass followed by the
language-agnostic pass. -/
def analyze (cfg : AgentConfig) (content : FileContent) (language fp : String) :
    List IssueDict :=
  (if language == "python" then analyze_python cfg content fp
   else if language == "javascript" then analyze_javascript content.text fp
   else if language == "java" then analyze_java content.text fp
   else if language == "cpp" then analyze_cpp content.text fp
   else if language == "go" then analyze_go content.text fp
   else if language == "rust" then analyze_rust content.text fp
   else [])
  ++ analyze_general content.text fp

/-- `_analyze_python_performance`'s pattern table. -/
def pythonPerformancePatterns : List (RE × String) :=
  [ (reCat [reStr "for", wsPlus, rePlus isWordChar, wsPlus, reStr "in", wsPlus,
        reStr "range(len(", rePlus (fun c => !(c == ')')), reStr "))"],
      "Use enumerate() instead of range(len())"),
    (reCat [reStr ".append(", RE.star (fun c => !(c == ')')), chr ')', wsStar, RE.eol],
      "Consider using list comprehension for better performance"),
    (reCat [reStr "import", wsPlus, chr '*'],
      "Avoid wildcard imports for better performance") ]

/-- `_analyze_python_performance`. -/
def analyze_python_performance (content fp : String) : List IssueDict :=
  regexIssues "performance" "LOW" pythonPerformancePatterns content fp

/-- `_analyze_javascript_performance`'s pattern table. -/
def javascriptPerformancePatterns : List (RE × String) :=
  [ (reCat [reStr "document.getElementById(", rePlus (fun c => !(c == ')')),
        reStr ").innerHTML", wsStar, chr '='],
      "Use textContent instead of innerHTML for better performance"),
    (reCat [reStr "for", wsStar, chr '(', wsStar, reStr "var", wsPlus,
        rePlus isWordChar, wsStar, chr '=', wsStar, chr '0'],
      "Use let instead of var in for loops") ]

/-- `_analyze_javascript_performance`. -/
def analyze_javascript_performance (content fp : String) : List IssueDict :=
  regexIssues "performance" "MEDIUM" javascriptPerformancePatterns content fp

/-- `CodeAnalyzer.analyze_performance`. -/
def analyze_performance (content language fp : String) : List IssueDict :=
  if language == "python" then analyze_python_performance content fp
  else if language == "javascript" then analyze_javascript_performance content fp
  else []

/-! ### agent.py -/

/-- The outcome of one round trip of `_call_ollama`: either the model answered
with a string, or the call raised (service unreachable, timeout, any
transport failure). -/
inductive OllamaOutcome where
  | ok (response : String)
  | failure
deriving DecidableEq

/-- `_call_ollama`: the model's answer on success, and the empty string when
the call raised (the `except` branch logs and returns `""`). -/
def call_ollama : OllamaOutcome → String
  | .ok r => r
  | .failure => ""

/-- An entry of an issue list.  Static analyzers only ever append dicts, but
the `issues` array of a JSON AI response can hold arbitrary values; a
non-dict entry is `nonObj` (its payload only keeps distinct values distinct). -/
inductive PyVal where
  | obj (d : IssueDict)
  | nonObj (tag : Nat)
deriving DecidableEq

/-- Whether an issue entry is a dict. -/
def PyVal.isObj : PyVal → Bool
  | .obj _ => true
  | .nonObj _ => false

/-- The single synthetic issue `_parse_ai_response` builds from a non-JSON
response: `{"type": analysis_type, "severity": "MEDIUM", "message":
response[:200], "source": "AI"}`. -/
def aiFallbackIssue (analysisType response : String) : IssueDict :=
  { type := some analysisType, severity := some "MEDIUM",
    message := some (response.take 200), source := some "AI" }

/-- `_parse_ai_response`.  `jsonIssues` is the oracle for
`json.loads(response).get("issues", [])`; `none` models any exception raised
there (malformed JSON, or a decoded value that is not a dict), which the bare
`except` turns into `[]`. -/
def parse_ai_response (jsonIssues : String → Option (List PyVal))
    (response : String) (analysisType : String) : List PyVal :=
  if startsWithChar (pyStrip response) lbrace then
    match jsonIssues response with
    | some issues => issues
    | none => []
  else
    [PyVal.obj (aiFallbackIssue analysisType response)]

/-- `pathlib.Path.suffix` for ordinary relative paths: the final
dot-extension of the last `/`-separated component, empty when the component
has no dot or only a leading one. -/
def pathSuffix (p : String) : String :=
  let name := (splitOnChar p '/').getLastD p
  match splitOnChar name '.' with
  | [] => ""
  | [_] => ""
  | first :: rest =>
    let ext := rest.getLastD ""
    if (first == "" && rest.length == 1) || ext == "" then "" else "." ++ ext

/-- `_get_language`: `ext_to_lang.get(file_path.suffix.lower(), "unknown")`. -/
def get_language (fp : String) : String :=
  let ext := strToLower (pathSuffix fp)
  if ext == ".py" then "python"
  else if ext == ".js" then "javascript"
  else if ext == ".java" then "java"
  else if ext == ".cpp" then "cpp"
  else if ext == ".go" then "go"
  else if ext == ".rs" then "rust"
  else "unknown"

/-- One file the orchestrator visits: its path, the outcome of opening and
reading it (`error` = the exception text of a failed read), and the outcomes
of the two Ollama calls made for it. -/
structure FileInput where
  path : String
  read : Except String FileContent
  aiQuality : OllamaOutcome
  aiSecurity : OllamaOutcome

/-- The per-file result dict of `_review_file`.  The failure branch of the
source returns a dict holding only `file_path`, `error` and `issues`; the
remaining keys are absent there and every consumer reads them through
`.get(key, default)` with exactly these defaults. -/
structure FileResult where
  file_path : String
  language : String := ""
  size : Nat := 0
  lines : Nat := 0
  issues : List PyVal := []
  security_issues : List PyVal := []
  quality_issues : List PyVal := []
  performance_issues : List PyVal := []
  suggestions : List PyVal := []
  error : Option String := none
deriving DecidableEq

/-- `_analyze_code_quality`: static issues from the analyzer followed by the
parsed AI response for the quality prompt.  (None of the embedded operations
can raise, so the enclosing `try` is not represented.) -/
def analyze_code_quality (cfg : AgentConfig) (jsonIssues : String → Option (List PyVal))
    (content : FileContent) (language fp : String) (ai : OllamaOutcome) : List PyVal :=
  (analyze cfg content language fp).map PyVal.obj
    ++ parse_ai_response jsonIssues (call_ollama ai) "quality"

/-- `_analyze_security`: scanner issues followed by the parsed AI response for
the security prompt. -/
def analyze_security (cfg : AgentConfig) (jsonIssues : String → Option (List PyVal))
    (content : FileContent) (language fp : String) (ai : OllamaOutcome) : List PyVal :=
  (scan cfg content.text language fp).map PyVal.obj
    ++ parse_ai_response jsonIssues (call_ollama ai) "security"

/-- `_review_file`: on a read failure, the error-carrying dict; otherwise the
full result, with `issues` extended by the quality, security (when enabled)
and performance lists in that order. -/
def review_file (cfg : AgentConfig) (jsonIssues : String → Option (List PyVal))
    (f : FileInput) : FileResult :=
  match f.read with
  | .error e => { file_path := f.path, error := some e, issues := [] }
  | .ok content =>
    let language := get_language f.path
    let quality_issues := analyze_code_quality cfg jsonIssues content language f.path f.aiQuality
    let security_issues :=
      if cfg.security_enabled then
        analyze_security cfg jsonIssues content language f.path f.aiSecurity
      else []
    let performance_issues := (analyze_performance content.text language f.path).map PyVal.obj
    { file_path := f.path
      language := language
      size := content.text.length
      lines := (pySplitlines content.text).length
      issues := quality_issues ++ security_issues ++ performance_issues
      security_issues := security_issues
      quality_issues := quality_issues
      performance_issues := performance_issues
      suggestions := []
      error := none }

/-- The dict update `breakdown[severity] = breakdown.get(severity, 0) + 1` on
an association list with unique keys: bump the first binding of the key, or
append a fresh binding at the end, as a Python dict does. -/
def dictIncr : List (String × Nat) → String → List (String × Nat)
  | [], k => [(k, 1)]
  | (k2, v) :: rest, k =>
    if k2 == k then (k2, v + 1) :: rest else (k2, v) :: dictIncr rest k

/-- One step of `_get_severity_breakdown`'s inner loop:
`issue.get("severity", "MEDIUM")` works on a dict (an absent key defaults to
`"MEDIUM"`) and raises `AttributeError` on anything else. -/
def breakdownStep (bd : List (String × Nat)) : PyVal → Except String (List (String × Nat))
  | .obj d => .ok (dictIncr bd (d.severity.getD "MEDIUM"))
  | .nonObj _ => .error "AttributeError: object has no attribute get"

/-- `_get_severity_breakdown`: fold the update over every issue of every file,
starting from `{"HIGH": 0, "MEDIUM": 0, "LOW": 0}`. -/
def get_severity_breakdown (files : List FileResult) :
    Except String (List (String × Nat)) :=
  files.foldlM (fun bd f => f.issues.foldlM breakdownStep bd)
    [("HIGH", 0), ("MEDIUM", 0), ("LOW", 0)]

/-- The `summary` dict of `_generate_summary`. -/
structure Summary where
  total_files : Nat
  total_issues : Nat
  security_issues : Nat
  quality_issues : Nat
  performance_issues : Nat
  severity_breakdown : List (String × Nat)
deriving DecidableEq

/-- The session dict `review_code` builds (`timestamp` is an external clock
reading and is not modelled; `summary` and `error` are absent keys until
assigned). -/
structure ReviewResults where
  path : String
  files_reviewed : Nat := 0
  issues_found : Nat := 0
  security_issues : Nat := 0
  quality_issues : Nat := 0
  performance_issues : Nat := 0
  files : List FileResult := []
  summary : Option Summary := none
  error : Option String := none
deriving DecidableEq

/-- `_generate_summary` (propagating the exception of the breakdown loop). -/
def generate_summary (results : ReviewResults) : Except String Summary := do
  let bd ← get_severity_breakdown results.files
  pure { total_files := results.files_reviewed
         total_issues := results.issues_found
         security_issues := results.security_issues
         quality_issues := results.quality_issues
         performance_issues := results.performance_issues
         severity_breakdown := bd }

/-- The per-file accumulation loop of `review_code`: append the file result and
bump the five counters. -/
def reviewLoop (cfg : AgentConfig) (jsonIssues : String → Option (List PyVal))
    (fs : List FileInput) (acc : ReviewResults) : ReviewResults :=
  fs.foldl (fun acc f =>
    let fr := review_file cfg jsonIssues f
    { acc with
      files := acc.files ++ [fr]
      files_reviewed := acc.files_reviewed + 1
      issues_found := acc.issues_found + fr.issues.length
      security_issues := acc.security_issues + fr.security_issues.length
      quality_issues := acc.quality_issues + fr.quality_issues.length
      performance_issues := acc.performance_issues + fr.performance_issues.length }) acc

/-- `review_code`.  `discovery` is the outcome of `_get_files_to_review`
(`error` = the enumeration raised).  The `try` block covers discovery, the
per-file loop and summary generation; `_review_file` catches its own
exceptions, so inside the loop nothing can raise, and the `except` branch is
reachable from discovery and from `_generate_summary` only — it records
`str(e)` under `error` and returns the partial results dict. -/
def review_code (cfg : AgentConfig) (jsonIssues : String → Option (List PyVal))
    (path : String) (discovery : Except String (List FileInput)) : ReviewResults :=
  let results : ReviewResults := { path := path }
  match discovery with
  | .error e => { results with error := some e }
  | .ok fs =>
    let results := reviewLoop cfg jsonIssues fs results
    match generate_summary results with
    | .ok s => { results with summary := some s }
    | .error e => { results with error := some e }

/-! ### Helper definitions and lemmas for the aggregation invariants -/

/-- `sum(breakdown.values())`. -/
def sumValues (bd : List (String × Nat)) : Nat := (bd.map Prod.snd).sum

/-- Computation rule for `Except` bind on a success. -/
theorem exceptBind_ok {ε α β : Type} (a : α) (f : α → Except ε β) :
    (Except.ok a >>= f) = f a := rfl

/-- Computation rule for `Except` bind on a failure. -/
theorem exceptBind_error {ε α β : Type} (e : ε) (f : α → Except ε β) :
    ((Except.error e : Except ε α) >>= f) = Except.error e := rfl

/-- `pure` on `Except` is `ok`. -/
theorem exceptPure {ε α : Type} (a : α) : (pure a : Except ε α) = Except.ok a := rfl

/-- Each dict update adds exactly one to the sum of the values. -/
theorem dictIncr_sumValues (bd : List (String × Nat)) (k : String) :
    sumValues (dictIncr bd k) = sumValues bd + 1 := by
  induction bd with
  | nil => simp [dictIncr, sumValues]
  | cons hd tl ih =>
    rcases hd with ⟨k2, v⟩
    simp only [dictIncr]
    split
    · simp [sumValues]
      omega
    · simp [sumValues] at ih ⊢
      omega

/-- A successful pass of the inner breakdown loop over an issue list adds the
list's length to the sum of the values. -/
theorem foldlM_breakdown_sum (issues : List PyVal) :
    ∀ bd bd2, issues.foldlM breakdownStep bd = .ok bd2 →
      sumValues bd2 = sumValues bd + issues.length := by
  induction issues with
  | nil =>
    intro bd bd2 h
    rw [List.foldlM_nil, exceptPure] at h
    cases h
    simp
  | cons v tl ih =>
    intro bd bd2 h
    rw [List.foldlM_cons] at h
    cases v with
    | obj d =>
      simp only [breakdownStep, exceptBind_ok] at h
      have := ih _ _ h
      rw [this, dictIncr_sumValues]
      simp
      omega
    | nonObj t =>
      simp only [breakdownStep, exceptBind_error] at h
      simp at h

/-- A successful breakdown over a file list adds the total issue count. -/
theorem foldlM_breakdown_files_sum (files : List FileResult) :
    ∀ bd0 bd, files.foldlM (fun bd f => f.issues.foldlM breakdownStep bd) bd0 = .ok bd →
      sumValues bd = sumValues bd0 + (files.map (fun f => f.issues.length)).sum := by
  induction files with
  | nil =>
    intro bd0 bd h
    rw [List.foldlM_nil, exceptPure] at h
    cases h
    simp
  | cons f tl ih =>
    intro bd0 bd h
    rw [List.foldlM_cons] at h
    cases hf : f.issues.foldlM breakdownStep bd0 with
    | error e =>
      rw [hf, exceptBind_error] at h
      simp at h
    | ok bd1 =>
      rw [hf, exceptBind_ok] at h
      have h1 := foldlM_breakdown_sum _ _ _ hf
      have h2 := ih _ _ h
      rw [h2, h1]
      simp
      omega

/-- The severity breakdown, when it is computed at all, counts every issue of
every file exactly once. -/
theorem get_severity_breakdown_total (files : List FileResult) (bd : List (String × Nat))
    (h : get_severity_breakdown files = .ok bd) :
    sumValues bd = (files.map (fun f => f.issues.length)).sum := by
  have := foldlM_breakdown_files_sum files _ _ h
  simpa [sumValues] using this

/-- What the accumulation loop of `review_code` does to the session record. -/
theorem reviewLoop_spec (cfg : AgentConfig) (J : String → Option (List PyVal))
    (fs : List FileInput) :
    ∀ acc, (reviewLoop cfg J fs acc).files = acc.files ++ fs.map (review_file cfg J) ∧
      (reviewLoop cfg J fs acc).files_reviewed = acc.files_reviewed + fs.length ∧
      (reviewLoop cfg J fs acc).issues_found
        = acc.issues_found + (fs.map (fun f => (review_file cfg J f).issues.length)).sum ∧
      (reviewLoop cfg J fs acc).error = acc.error ∧
      (reviewLoop cfg J fs acc).summary = acc.summary ∧
      (reviewLoop cfg J fs acc).path = acc.path := by
  induction fs with
  | nil => intro acc; simp [reviewLoop]
  | cons f tl ih =>
    intro acc
    have step : reviewLoop cfg J (f :: tl) acc
        = reviewLoop cfg J tl
          (let fr := review_file cfg J f
           { acc with
             files := acc.files ++ [fr]
             files_reviewed := acc.files_reviewed + 1
             issues_found := acc.issues_found + fr.issues.length
             security_issues := acc.security_issues + fr.security_issues.length
             quality_issues := acc.quality_issues + fr.quality_issues.length
             performance_issues := acc.performance_issues + fr.performance_issues.length }) := by
      simp [reviewLoop]
    rw [step]
    obtain ⟨h1, h2, h3, h4, h5, h6⟩ := ih _
    refine ⟨?_, ?_, ?_, ?_, ?_, ?_⟩
    · rw [h1]; simp
    · rw [h2]; simp; omega
    · rw [h3]; simp; omega
    · rw [h4]
    · rw [h5]
    · rw [h6]

/-- A successful `_generate_summary` records the breakdown of the session's
files and copies the session's running total. -/
theorem generate_summary_ok (r : ReviewResults) (s : Summary)
    (h : generate_summary r = .ok s) :
    get_severity_breakdown r.files = .ok s.severity_breakdown ∧
    s.total_issues = r.issues_found := by
  unfold generate_summary at h
  cases hg : get_severity_breakdown r.files with
  | error e =>
    rw [hg, exceptBind_error] at h
    simp at h
  | ok bd =>
    rw [hg, exceptBind_ok, exceptPure] at h
    cases h
    exact ⟨rfl, rfl⟩

/-! ### Claim C1 -/

/-- C1: for every `ReviewSession` returned by `review_code` (i.e. whichever
summary the returned session carries), the sum of the values of
`summary.severity_breakdown` equals `issues_found`, and both equal the sum
over all entries of `files` of the length of that entry's `issues` list. -/
theorem C1_severity_breakdown_totals (cfg : AgentConfig)
    (J : String → Option (List PyVal)) (path : String)
    (d : Except String (List FileInput)) (s : Summary)
    (h : (review_code cfg J path d).summary = some s) :
    sumValues s.severity_breakdown = (review_code cfg J path d).issues_found ∧
    (review_code cfg J path d).issues_found
      = ((review_code cfg J path d).files.map (fun fr => fr.issues.length)).sum := by
  cases d with
  | error e => simp [review_code] at h
  | ok fs =>
    rcases hg : generate_summary (reviewLoop cfg J fs { path := path }) with e | s0
    · have hcode : review_code cfg J path (.ok fs)
          = { reviewLoop cfg J fs { path := path } with error := some e } := by
        simp [review_code, hg]
      rw [hcode] at h
      obtain ⟨_, _, _, _, h5, _⟩ := reviewLoop_spec cfg J fs { path := path }
      simp [h5] at h
    · have hcode : review_code cfg J path (.ok fs)
          = { reviewLoop cfg J fs { path := path } with summary := some s0 } := by
        simp [review_code, hg]
      rw [hcode] at h ⊢
      simp only [Option.some.injEq] at h
      subst h
      obtain ⟨hfiles, _, hfound, _, _, _⟩ := reviewLoop_spec cfg J fs { path := path }
      have hsum := get_severity_breakdown_total _ _ (generate_summary_ok _ _ hg).1
      have hproj : ({ reviewLoop cfg J fs { path := path } with
          summary := some s0 } : ReviewResults).issues_found
          = (reviewLoop cfg J fs { path := path }).issues_found := rfl
      have hprojf : ({ reviewLoop cfg J fs { path := path } with
          summary := some s0 } : ReviewResults).files
          = (reviewLoop cfg J fs { path := path }).files := rfl
      rw [hproj, hprojf, hsum, hfiles, hfound]
      constructor
      · simp [List.map_map, Function.comp_def]
      · simp [List.map_map, Function.comp_def]

/-- C1 witness at a concrete run. -/
theorem C1_severity_breakdown_totals_witness :
    sumValues
        [("HIGH", 0), ("MEDIUM", 2), ("LOW", 0)]
      = (review_code {} (fun _ => none) "d"
          (.ok [{ path := "a.py",
                  read := .ok { text := "x = 1\n", parse := .ok [PyNode.otherNode []] },
                  aiQuality := .failure, aiSecurity := .failure }])).issues_found ∧
    (review_code {} (fun _ => none) "d"
        (.ok [{ path := "a.py",
                read := .ok { text := "x = 1\n", parse := .ok [PyNode.otherNode []] },
                aiQuality := .failure, aiSecurity := .failure }])).issues_found
      = ((review_code {} (fun _ => none) "d"
          (.ok [{ path := "a.py",
                  read := .ok { text := "x = 1\n", parse := .ok [PyNode.otherNode []] },
                  aiQuality := .failure, aiSecurity := .failure }])).files.map
            (fun fr => fr.issues.length)).sum := by
  have h := C1_severity_breakdown_totals {} (fun _ => none) "d"
    (.ok [{ path := "a.py",
            read := .ok { text := "x = 1\n", parse := .ok [PyNode.otherNode []] },
            aiQuality := .failure, aiSecurity := .failure }])
    { total_files := 1, total_issues := 2, security_issues := 1, quality_issues := 1,
      performance_issues := 0,
      severity_breakdown := [("HIGH", 0), ("MEDIUM", 2), ("LOW", 0)] }
    (by rfl)
  exact h

/-! ### Claim C10 -/

/-- Replacing a dict issue's missing severity by an explicit `"MEDIUM"` (what
`issue.get("severity", "MEDIUM")` defaults to). -/
def withDefaultSeverity : PyVal → PyVal
  | .obj d => .obj { d with severity := some (d.severity.getD "MEDIUM") }
  | .nonObj t => .nonObj t

/-- One breakdown step cannot tell a missing severity from `"MEDIUM"`. -/
theorem breakdownStep_default (bd : List (String × Nat)) (v : PyVal) :
    breakdownStep bd (withDefaultSeverity v) = breakdownStep bd v := by
  cases v with
  | obj d => simp [withDefaultSeverity, breakdownStep]
  | nonObj t => rfl

/-- The inner breakdown loop cannot tell missing severities from `"MEDIUM"`. -/
theorem foldlM_breakdown_default (issues : List PyVal) :
    ∀ bd, (issues.map withDefaultSeverity).foldlM breakdownStep bd
      = issues.foldlM breakdownStep bd := by
  induction issues with
  | nil => intro bd; rfl
  | cons v tl ih =>
    intro bd
    rw [List.map_cons, List.foldlM_cons, List.foldlM_cons, breakdownStep_default]
    cases hv : breakdownStep bd v with
    | error e => rw [exceptBind_error, exceptBind_error]
    | ok bd2 => rw [exceptBind_ok, exceptBind_ok, ih]

/-- C10: in the severity breakdown, an issue dict that lacks a severity field
is counted under `MEDIUM` — replacing every missing severity by an explicit
`"MEDIUM"` leaves `_get_severity_breakdown` unchanged — and the breakdown
total still counts every issue exactly once. -/
theorem C10_missing_severity_counted_medium (files : List FileResult) :
    get_severity_breakdown
        (files.map (fun fr => { fr with issues := fr.issues.map withDefaultSeverity }))
      = get_severity_breakdown files ∧
    ∀ bd, get_severity_breakdown files = .ok bd →
      sumValues bd = (files.map (fun f => f.issues.length)).sum := by
  constructor
  · show List.foldlM _ _ _ = List.foldlM _ _ _
    generalize ([("HIGH", 0), ("MEDIUM", 0), ("LOW", 0)] : List (String × Nat)) = bd0
    induction files generalizing bd0 with
    | nil => rfl
    | cons f tl ih =>
      rw [List.map_cons, List.foldlM_cons, List.foldlM_cons]
      have hf : ({ f with issues := f.issues.map withDefaultSeverity } : FileResult).issues
          = f.issues.map withDefaultSeverity := rfl
      rw [hf, foldlM_breakdown_default]
      cases hv : f.issues.foldlM breakdownStep bd0 with
      | error e => rw [exceptBind_error, exceptBind_error]
      | ok bd2 => rw [exceptBind_ok, exceptBind_ok, ih]
  · intro bd h
    exact get_severity_breakdown_total files bd h

/-- C10 witness at a concrete file list containing a severity-less AI issue. -/
theorem C10_missing_severity_counted_medium_witness :
    get_severity_breakdown
        (([{ file_path := "a.py",
             issues := [PyVal.obj { message := some "from AI" }] }] : List FileResult).map
          (fun fr => { fr with issues := fr.issues.map withDefaultSeverity }))
      = get_severity_breakdown
          [{ file_path := "a.py", issues := [PyVal.obj { message := some "from AI" }] }] ∧
    sumValues [("HIGH", 0), ("MEDIUM", 1), ("LOW", 0)]
      = (([{ file_path := "a.py",
             issues := [PyVal.obj { message := some "from AI" }] }] : List FileResult).map
          (fun f => f.issues.length)).sum := by
  refine ⟨(C10_missing_severity_counted_medium _).1, ?_⟩
  exact (C10_missing_severity_counted_medium _).2 _ (by rfl)

/-! ### Claim C2 -/

/-- C2 counterexample: on a transport failure (service unreachable or timeout)
`_call_ollama` returns the empty string, and `_parse_ai_response` then takes
the plain-text fallback branch — the AI contribution is one synthetic
`MEDIUM` issue with an empty message, not the empty sequence the claim
states. -/
theorem C2_transport_failure_contribution_nonempty :
    parse_ai_response (fun _ => none) (call_ollama .failure) "quality"
      = [PyVal.obj (aiFallbackIssue "quality" "")] ∧
    parse_ai_response (fun _ => none) (call_ollama .failure) "quality" ≠ [] := by
  exact ⟨rfl, by decide⟩

/-- C2 amended: the augmentation step is total and failures never propagate —
but only a malformed JSON response (text opening with a brace that fails to
decode) contributes the empty sequence; a failed model call yields the empty
response, whose fallback contributes exactly one `MEDIUM` AI issue with an
empty message. -/
theorem C2_ai_failure_contribution (J : String → Option (List PyVal)) (ty r : String) :
    parse_ai_response J (call_ollama .failure) ty = [PyVal.obj (aiFallbackIssue ty "")] ∧
    (startsWithChar (pyStrip r) lbrace = true → J r = none →
      parse_ai_response J r ty = []) := by
  constructor
  · rfl
  · intro h1 h2
    simp [parse_ai_response, h1, h2]

/-- C2 witness at a concrete failing call and a concrete malformed response. -/
theorem C2_ai_failure_contribution_witness :
    parse_ai_response (fun _ => none) (call_ollama .failure) "security"
      = [PyVal.obj (aiFallbackIssue "security" "")] ∧
    parse_ai_response (fun _ => none) "\x7b bad json" "security" = [] := by
  refine ⟨(C2_ai_failure_contribution (fun _ => none) "security" "\x7b bad json").1, ?_⟩
  exact (C2_ai_failure_contribution (fun _ => none) "security" "\x7b bad json").2 rfl rfl

/-! ### Claim C8 -/

/-- The one-line input of the hardcoded-credential scenario. -/
def passwordLine : String := "password = \"supersecret123\""

/-- C8: scanning `password = "supersecret123"` in a supported language yields
at least one `security`/`HIGH` issue carrying the hardcoded-credential
weakness `CWE-798` whose reported line is 1 (`ruleIssues` computes the line
as 1 plus the newlines preceding the match offset, and the password rule
matches at offset 0). -/
theorem C8_hardcoded_password :
    (scan {} passwordLine "python" "test.py").any
      (fun i => i.type == some "security" && i.severity == some "HIGH" &&
        i.cwe_id == some "CWE-798" && i.line == some 1 &&
        i.message == some "Hardcoded password detected") = true := by
  decide

/-! ### Claim C9 -/

/-- C9: the secret-detection pass is gated by `check_secrets` and runs
independently of the category tables — with the flag off, the scan is
exactly the flag-on scan minus the trailing secret-detection block, and it
still consists of the unchanged category-table issues followed by the
language-specific issues. -/
theorem C9_secret_flag_independent (cfg : AgentConfig) (content language fp : String) :
    scan { cfg with check_secrets := true } content language fp
      = scan { cfg with check_secrets := false } content language fp
        ++ scan_for_secrets content fp ∧
    scan { cfg with check_secrets := false } content language fp
      = scanCategories content fp
        ++ (if language == "python" then scan_python_security content fp
            else if language == "javascript" then scan_javascript_security content fp
            else if language == "java" then scan_java_security content fp
            else []) := by
  constructor
  · simp [scan, List.append_assoc]
  · simp [scan]

/-! ### Claim C5 -/

/-- C5: for every reviewed file (readable content, security analysis enabled)
the merged per-file issue list is: quality static issues, then quality AI
issues, then security static issues, then security AI issues, then
performance issues. -/
theorem C5_merge_order (cfg : AgentConfig) (J : String → Option (List PyVal))
    (f : FileInput) (c : FileContent) (hread : f.read = .ok c)
    (hsec : cfg.security_enabled = true) :
    (review_file cfg J f).issues
      = (analyze cfg c (get_language f.path) f.path).map PyVal.obj
        ++ parse_ai_response J (call_ollama f.aiQuality) "quality"
        ++ (scan cfg c.text (get_language f.path) f.path).map PyVal.obj
        ++ parse_ai_response J (call_ollama f.aiSecurity) "security"
        ++ (analyze_performance c.text (get_language f.path) f.path).map PyVal.obj := by
  simp [review_file, hread, analyze_code_quality, analyze_security, hsec,
    List.append_assoc]

/-- C5 witness at a concrete file. -/
theorem C5_merge_order_witness :
    (review_file {} (fun _ => none)
        { path := "a.py", read := .ok { text := "x = 1\n", parse := .ok [PyNode.otherNode []] },
          aiQuality := .failure, aiSecurity := .failure }).issues
      = (analyze {} { text := "x = 1\n", parse := .ok [PyNode.otherNode []] }
            (get_language "a.py") "a.py").map PyVal.obj
        ++ parse_ai_response (fun _ => none) (call_ollama .failure) "quality"
        ++ (scan {} "x = 1\n" (get_language "a.py") "a.py").map PyVal.obj
        ++ parse_ai_response (fun _ => none) (call_ollama .failure) "security"
        ++ (analyze_performance "x = 1\n" (get_language "a.py") "a.py").map PyVal.obj := by
  exact C5_merge_order {} (fun _ => none)
    { path := "a.py", read := .ok { text := "x = 1\n", parse := .ok [PyNode.otherNode []] },
      aiQuality := .failure, aiSecurity := .failure }
    { text := "x = 1\n", parse := .ok [PyNode.otherNode []] } rfl rfl

/-! ### Claim C4 -/

/-- When every JSON-decoded AI issue is a dict, the AI contribution consists of
dicts only. -/
theorem parse_ai_response_obj (J : String → Option (List PyVal))
    (h : ∀ s l, J s = some l → ∀ v ∈ l, v.isObj = true) (r ty : String) :
    ∀ v ∈ parse_ai_response J r ty, v.isObj = true := by
  intro v hv
  unfold parse_ai_response at hv
  split at hv
  · cases hJ : J r with
    | none => rw [hJ] at hv; simp at hv
    | some l => rw [hJ] at hv; exact h _ _ hJ v hv
  · simp at hv
    subst hv
    rfl

/-- Under the same assumption, every issue a file result carries is a dict. -/
theorem review_file_issues_obj (cfg : AgentConfig) (J : String → Option (List PyVal))
    (h : ∀ s l, J s = some l → ∀ v ∈ l, v.isObj = true) (f : FileInput) :
    ∀ v ∈ (review_file cfg J f).issues, v.isObj = true := by
  intro v hv
  unfold review_file at hv
  split at hv
  · simp at hv
  · simp only [analyze_code_quality, analyze_security] at hv
    rcases List.mem_append.1 hv with hv1 | hp
    · rcases List.mem_append.1 hv1 with hq | hs
      · rcases List.mem_append.1 hq with hqs | hqa
        · rcases List.mem_map.1 hqs with ⟨d, _, rfl⟩; rfl
        · exact parse_ai_response_obj J h _ _ v hqa
      · split at hs
        · rcases List.mem_append.1 hs with hss | hsa
          · rcases List.mem_map.1 hss with ⟨d, _, rfl⟩; rfl
          · exact parse_ai_response_obj J h _ _ v hsa
        · simp at hs
    · rcases List.mem_map.1 hp with ⟨d, _, rfl⟩; rfl

/-- The breakdown loop succeeds on a list of dict issues. -/
theorem foldlM_breakdown_ok (issues : List PyVal) :
    ∀ bd, (∀ v ∈ issues, v.isObj = true) →
      ∃ bd2, issues.foldlM breakdownStep bd = .ok bd2 := by
  induction issues with
  | nil => intro bd _; exact ⟨bd, rfl⟩
  | cons v tl ih =>
    intro bd h
    cases v with
    | obj d =>
      rw [List.foldlM_cons]
      simp only [breakdownStep, exceptBind_ok]
      exact ih _ (fun w hw => h w (List.mem_cons_of_mem _ hw))
    | nonObj t =>
      have := h _ (List.mem_cons_self _ _)
      simp [PyVal.isObj] at this

/-- The severity breakdown succeeds when every issue of every file is a dict. -/
theorem get_severity_breakdown_ok (files : List FileResult)
    (h : ∀ fr ∈ files, ∀ v ∈ fr.issues, v.isObj = true) :
    ∃ bd, get_severity_breakdown files = .ok bd := by
  show ∃ bd, List.foldlM _ _ _ = _
  generalize ([("HIGH", 0), ("MEDIUM", 0), ("LOW", 0)] : List (String × Nat)) = bd0
  induction files generalizing bd0 with
  | nil => exact ⟨bd0, rfl⟩
  | cons fr tl ih =>
    rw [List.foldlM_cons]
    obtain ⟨bd1, hbd1⟩ := foldlM_breakdown_ok fr.issues bd0
      (h fr (List.mem_cons_self _ _))
    rw [hbd1, exceptBind_ok]
    exact ih (fun g hg => h g (List.mem_cons_of_mem _ hg)) bd1

/-- C4 amended: a discovery-level failure is recorded as a whole-run failure
(top-level `error`, no summary, no files), and file-, engine- and
transport-level failures are absorbed into a complete session (no error,
summary present, every file counted) — provided every JSON-decoded AI issue
is a dict.  (A JSON AI response whose `issues` array holds a non-dict breaks
this: see the counterexample.) -/
theorem C4_error_containment (cfg : AgentConfig) (J : String → Option (List PyVal))
    (p : String) :
    (∀ e, (review_code cfg J p (.error e)).error = some e ∧
      (review_code cfg J p (.error e)).summary = none ∧
      (review_code cfg J p (.error e)).files = []) ∧
    (∀ fs, (∀ s l, J s = some l → ∀ v ∈ l, v.isObj = true) →
      (review_code cfg J p (.ok fs)).error = none ∧
      (review_code cfg J p (.ok fs)).summary.isSome = true ∧
      (review_code cfg J p (.ok fs)).files_reviewed = fs.length) := by
  constructor
  · intro e
    exact ⟨rfl, rfl, rfl⟩
  · intro fs h
    obtain ⟨hfiles, hrev, _, herr, _, _⟩ := reviewLoop_spec cfg J fs { path := p }
    have hobj : ∀ fr ∈ (reviewLoop cfg J fs { path := p }).files,
        ∀ v ∈ fr.issues, v.isObj = true := by
      intro fr hfr
      rw [hfiles] at hfr
      simp only [List.nil_append] at hfr
      rcases List.mem_map.1 hfr with ⟨g, _, rfl⟩
      exact review_file_issues_obj cfg J h g
    obtain ⟨bd, hbd⟩ := get_severity_breakdown_ok _ hobj
    have hgen : generate_summary (reviewLoop cfg J fs { path := p })
        = .ok { total_files := (reviewLoop cfg J fs { path := p }).files_reviewed
                total_issues := (reviewLoop cfg J fs { path := p }).issues_found
                security_issues := (reviewLoop cfg J fs { path := p }).security_issues
                quality_issues := (reviewLoop cfg J fs { path := p }).quality_issues
                performance_issues := (reviewLoop cfg J fs { path := p }).performance_issues
                severity_breakdown := bd } := by
      unfold generate_summary
      rw [hbd, exceptBind_ok, exceptPure]
    have hcode : review_code cfg J p (.ok fs)
        = { reviewLoop cfg J fs { path := p } with
            summary := some { total_files := (reviewLoop cfg J fs { path := p }).files_reviewed
                              total_issues := (reviewLoop cfg J fs { path := p }).issues_found
                              security_issues := (reviewLoop cfg J fs { path := p }).security_issues
                              quality_issues := (reviewLoop cfg J fs { path := p }).quality_issues
                              performance_issues := (reviewLoop cfg J fs { path := p }).performance_issues
                              severity_breakdown := bd } } := by
      simp [review_code, hgen]
    rw [hcode]
    refine ⟨?_, ?_, ?_⟩
    · show (reviewLoop cfg J fs { path := p }).error = none
      rw [herr]
    · rfl
    · show (reviewLoop cfg J fs { path := p }).files_reviewed = fs.length
      rw [hrev]
      simp

/-- C4 witness: a failing discovery and, separately, a successful run over one
readable file with failing AI calls. -/
theorem C4_error_containment_witness :
    (review_code {} (fun _ => none) "p" (.error "boom")).error = some "boom" ∧
    (review_code {} (fun _ => none) "p"
        (.ok [{ path := "a.py",
                read := .ok { text := "x = 1\n", parse := .ok [PyNode.otherNode []] },
                aiQuality := .failure, aiSecurity := .failure }])).summary.isSome = true := by
  constructor
  · exact ((C4_error_containment {} (fun _ => none) "p").1 "boom").1
  · exact ((C4_error_containment {} (fun _ => none) "p").2
      [{ path := "a.py",
         read := .ok { text := "x = 1\n", parse := .ok [PyNode.otherNode []] },
         aiQuality := .failure, aiSecurity := .failure }]
      (by intro s l hl; simp at hl)).2.1

/-- C4 counterexample: an AI response that is a JSON object whose `issues`
array holds a non-dict is absorbed by `_parse_ai_response`, but
`_get_severity_breakdown` then raises on it, `review_code` catches, and the
session comes back with a whole-run `error` and no summary although
discovery succeeded — an augmentation-level failure that does surface as a
whole-run failure. -/
theorem C4_augmentation_failure_whole_run :
    (review_code {} (fun _ => some [PyVal.nonObj 0]) "d"
        (.ok [{ path := "a.py",
                read := .ok { text := "x = 1\n", parse := .ok [PyNode.otherNode []] },
                aiQuality := .ok "\x7b\"issues\": [3]\x7d",
                aiSecurity := .failure }])).error
      = some "AttributeError: object has no attribute get" ∧
    (review_code {} (fun _ => some [PyVal.nonObj 0]) "d"
        (.ok [{ path := "a.py",
                read := .ok { text := "x = 1\n", parse := .ok [PyNode.otherNode []] },
                aiQuality := .ok "\x7b\"issues\": [3]\x7d",
                aiSecurity := .failure }])).summary = none := by
  exact ⟨rfl, rfl⟩

/-! ### Claim C3 -/

/-- A well-formed one-line Python file content. -/
def okPyContent : FileContent := { text := "x = 1\n", parse := .ok [PyNode.otherNode []] }

/-- An unparsable Python file content, with the position `ast.parse` reports. -/
def badPyContent : FileContent :=
  { text := "def f(:\n    pass\n",
    parse := .error { msg := "invalid syntax", lineno := some 1, offset := some 7 } }

/-- A readable Python file input whose AI calls fail (model service down). -/
def pyFileInput (p : String) (c : FileContent) : FileInput :=
  { path := p, read := .ok c, aiQuality := .failure, aiSecurity := .failure }

/-- One unparsable file and nine well-formed files. -/
def mixedTenFiles : List FileInput :=
  pyFileInput "bad.py" badPyContent ::
    (List.range 9).map (fun i => pyFileInput ("f" ++ toString i ++ ".py") okPyContent)

/-- C3 counterexample: over a directory of one unparsable and nine well-formed
files, `files_reviewed` is 10 but no file entry carries an `error` — the
syntax error becomes a `HIGH` issue inside `_analyze_python`, and
`_review_file`'s error branch is reached only by read failures. -/
theorem C3_no_error_field_for_unparsable :
    (review_code {} (fun _ => none) "d" (.ok mixedTenFiles)).files_reviewed = 10 ∧
    ¬ (((review_code {} (fun _ => none) "d" (.ok mixedTenFiles)).files.filter
        (fun fr => fr.error.isSome)).length = 1) := by
  exact ⟨rfl, by decide⟩

/-- A readable file's result never carries an error. -/
theorem review_file_error_none (cfg : AgentConfig) (J : String → Option (List PyVal))
    (g : FileInput) (h : g.read.isOk = true) :
    (review_file cfg J g).error = none := by
  unfold review_file
  cases hr : g.read with
  | error e => rw [hr] at h; simp [Except.isOk, Except.toBool] at h
  | ok c => rfl

/-- C3 amended: ten readable Python files, one of which fails to parse, yield
`files_reviewed = 10`, no entry with a non-empty `error`, and the unparsable
file's entry present in `files` carrying the `HIGH` syntax-error issue in
its issue list. -/
theorem C3_isolation_amended (cfg : AgentConfig) (J : String → Option (List PyVal))
    (p : String) (fs : List FileInput) (f : FileInput) (c : FileContent) (e : SyntaxErr)
    (hlen : fs.length = 10) (hall : ∀ g ∈ fs, g.read.isOk = true)
    (hf : f ∈ fs) (hread : f.read = .ok c) (hparse : c.parse = .error e)
    (hlang : get_language f.path = "python") :
    (review_code cfg J p (.ok fs)).files_reviewed = 10 ∧
    ((review_code cfg J p (.ok fs)).files.filter (fun fr => fr.error.isSome)).length = 0 ∧
    review_file cfg J f ∈ (review_code cfg J p (.ok fs)).files ∧
    PyVal.obj (pySyntaxIssue e f.path) ∈ (review_file cfg J f).issues := by
  obtain ⟨hfiles, hrev, _, _, _, _⟩ := reviewLoop_spec cfg J fs { path := p }
  have hparts : (review_code cfg J p (.ok fs)).files = fs.map (review_file cfg J) ∧
      (review_code cfg J p (.ok fs)).files_reviewed = fs.length := by
    rcases hg : generate_summary (reviewLoop cfg J fs { path := p }) with e' | s0 <;>
      simp [review_code, hg, hfiles, hrev]
  obtain ⟨hfiles2, hrev2⟩ := hparts
  refine ⟨by rw [hrev2, hlen], ?_, ?_, ?_⟩
  · rw [hfiles2]
    rw [show (0 : Nat) = ([] : List FileResult).length from rfl]
    congr 1
    rw [List.filter_eq_nil_iff]
    intro fr hfr
    rcases List.mem_map.1 hfr with ⟨g, hg, rfl⟩
    rw [review_file_error_none cfg J g (hall g hg)]
    simp
  · rw [hfiles2]
    exact List.mem_map_of_mem _ hf
  · have hissues : (review_file cfg J f).issues
        = analyze_code_quality cfg J c (get_language f.path) f.path f.aiQuality
          ++ ((if cfg.security_enabled then
                analyze_security cfg J c (get_language f.path) f.path f.aiSecurity
              else [])
          ++ (analyze_performance c.text (get_language f.path) f.path).map PyVal.obj) := by
      simp [review_file, hread]
    rw [hissues]
    apply List.mem_append_left
    unfold analyze_code_quality
    apply List.mem_append_left
    apply List.mem_map_of_mem
    have hana : analyze cfg c (get_language f.path) f.path
        = pySyntaxIssue e f.path :: analyze_general c.text f.path := by
      rw [hlang]
      simp [analyze, analyze_python, hparse]
    rw [hana]
    exact List.mem_cons_self _ _

/-- C3 witness: the amended statement discharged at the concrete ten files. -/
theorem C3_isolation_amended_witness :
    (review_code {} (fun _ => none) "d" (.ok mixedTenFiles)).files_reviewed = 10 ∧
    ((review_code {} (fun _ => none) "d" (.ok mixedTenFiles)).files.filter
        (fun fr => fr.error.isSome)).length = 0 ∧
    review_file {} (fun _ => none) (pyFileInput "bad.py" badPyContent)
      ∈ (review_code {} (fun _ => none) "d" (.ok mixedTenFiles)).files ∧
    PyVal.obj (pySyntaxIssue { msg := "invalid syntax", lineno := some 1, offset := some 7 }
        "bad.py")
      ∈ (review_file {} (fun _ => none) (pyFileInput "bad.py" badPyContent)).issues := by
  exact C3_isolation_amended {} (fun _ => none) "d" mixedTenFiles
    (pyFileInput "bad.py" badPyContent) badPyContent
    { msg := "invalid syntax", lineno := some 1, offset := some 7 }
    (by decide) (by decide)
    (by rw [mixedTenFiles]; exact List.mem_cons_self _ _) rfl rfl rfl

/-! ### Claim C6 -/

/-- The branching constructs of the spec's complexity formula (conditional,
loop, exception handler). -/
def isBranchConstruct : PyNode → Bool
  | .ifNode _ _ _ => true
  | .whileNode _ _ _ => true
  | .forNode _ _ _ _ => true
  | .asyncForNode _ _ _ _ => true
  | .exceptHandlerNode _ => true
  | _ => false

/-- Operand excess of one node: `len(values) - 1` on a boolean expression,
0 elsewhere. -/
def boolOpDelta : PyNode → Int
  | .boolOpNode values => (values.length : Int) - 1
  | _ => 0

/-- The number of branching constructs in a function (spec side: counted over
all constructs of the function body, i.e. over the walk). -/
def branchingCount (n : PyNode) : Nat := (pyWalk n).countP isBranchConstruct

/-- The operand excess summed over all boolean expressions of a function
(spec side). -/
def boolOpExcess (n : PyNode) : Int := ((pyWalk n).map boolOpDelta).sum

/-- Each walked node contributes its branch flag plus its boolean-operand
excess. -/
theorem complexityDelta_split (n : PyNode) :
    complexityDelta n = (if isBranchConstruct n then (1 : Int) else 0) + boolOpDelta n := by
  cases n <;> simp [complexityDelta, isBranchConstruct, boolOpDelta]

/-- The complexity fold over any node list equals the branch count plus the
boolean-operand excess. -/
theorem foldl_complexity (l : List PyNode) :
    ∀ c : Int, l.foldl (fun c child => c + complexityDelta child) c
      = c + (l.countP isBranchConstruct : Int) + (l.map boolOpDelta).sum := by
  induction l with
  | nil => intro c; simp
  | cons n tl ih =>
    intro c
    rw [List.foldl_cons, ih, complexityDelta_split]
    by_cases hb : isBranchConstruct n <;>
      simp [List.countP_cons, hb] <;> ring

/-- The function of the twelve-branch scenario: twelve independent `if`
statements, spanning lines 1–25, no parameters. -/
def twelveIfFunction : PyNode :=
  PyNode.functionDefNode "process" 0 1 25
    (List.replicate 12 (PyNode.ifNode (PyNode.otherNode []) [PyNode.otherNode []] []))

/-- C6: `_calculate_complexity` equals 1 plus the number of branching
constructs (conditional, loop, exception handler) plus the boolean-operator
operand excess summed over boolean expressions; and the twelve-`if` function
under the default threshold 10 yields exactly one `quality`/`MEDIUM`
complexity issue naming the function. -/
theorem C6_cyclomatic_complexity (node : PyNode) :
    calculate_complexity node
      = 1 + (branchingCount node : Int) + boolOpExcess node ∧
    analyze_python_function {} "t.py" twelveIfFunction
      = [staticIssue "quality" "MEDIUM"
          "Function \x27process\x27 has high complexity (13). Consider simplifying."
          (some 1) none "t.py"] := by
  constructor
  · unfold calculate_complexity branchingCount boolOpExcess
    exact foldl_complexity _ _
  · rfl

/-! ### Claim C7 -/

/-- Every issue of the language-agnostic pass is `LOW` severity. -/
theorem analyze_general_severity (content fp : String) :
    ∀ i ∈ analyze_general content fp, i.severity = some "LOW" := by
  intro i hi
  unfold analyze_general at hi
  rcases List.mem_append.1 hi with h | h <;>
  · rcases List.mem_flatMap.1 h with ⟨il, _, hmem⟩
    split at hmem <;> simp at hmem
    subst hmem
    rfl

/-- C7: on a Python file that fails to parse, the quality analysis is exactly
the `HIGH` syntax-error issue (carrying the parser's line and column)
followed by the language-agnostic regex issues, which still run; filtering
for `HIGH` severity leaves exactly the one syntax issue. -/
theorem C7_parse_failure_quality (cfg : AgentConfig) (c : FileContent) (e : SyntaxErr)
    (fp : String) (hparse : c.parse = .error e) :
    analyze cfg c "python" fp = pySyntaxIssue e fp :: analyze_general c.text fp ∧
    (analyze cfg c "python" fp).filter (fun i => i.severity == some "HIGH")
      = [pySyntaxIssue e fp] := by
  have h1 : analyze cfg c "python" fp
      = pySyntaxIssue e fp :: analyze_general c.text fp := by
    simp [analyze, analyze_python, hparse]
  refine ⟨h1, ?_⟩
  rw [h1, List.filter_cons]
  have hgen : (analyze_general c.text fp).filter (fun i => i.severity == some "HIGH") = [] := by
    rw [List.filter_eq_nil_iff]
    intro a ha
    rw [analyze_general_severity c.text fp a ha]
    decide
  rw [hgen]
  rfl

/-- C7 witness at the concrete unparsable content. -/
theorem C7_parse_failure_quality_witness :
    analyze {} badPyContent "python" "bad.py"
      = pySyntaxIssue { msg := "invalid syntax", lineno := some 1, offset := some 7 } "bad.py"
        :: analyze_general "def f(:\n    pass\n" "bad.py" ∧
    (analyze {} badPyContent "python" "bad.py").filter (fun i => i.severity == some "HIGH")
      = [pySyntaxIssue { msg := "invalid syntax", lineno := some 1, offset := some 7 } "bad.py"] := by
  exact C7_parse_failure_quality {} badPyContent
    { msg := "invalid syntax", lineno := some 1, offset := some 7 } "bad.py" rfl

end CodeReviewAgent
